import Mathlib

/-!
Shallow embedding of the `lightning-flash` style-transfer model
(`flash/vision/style_transfer/model.py`) and of the data-loading tutorial
(`flash_examples/flash_components/tutorial_1.py`), together with theorems
settling the specification claims about them.

Tensors are modelled as flat lists of exact rationals; external neural
network components (the encoder/decoder convolution stacks, the pystiche
perceptual-loss evaluation) are kept as uninterpreted function fields, since
their numerics live in external libraries, not in this repository.
-/

/-- The `DefaultDataKeys` enum from `flash.data.data_source`. -/
inductive DefaultDataKeys where
  | input
  | target
  | metadata
  | preds
deriving DecidableEq, Repr

/-- Image tensors, modelled as flat lists of exact rationals. -/
abbrev Tensor := List ℚ

/-- Python `dict` lookup on an association list keyed by `DefaultDataKeys`
(`batch[key]` / `sample[key]`, returning `none` where Python raises `KeyError`). -/
def dictLookup {α : Type} (k : DefaultDataKeys) : List (DefaultDataKeys × α) → Option α
  | [] => none
  | kv :: rest => if kv.1 = k then some kv.2 else dictLookup k rest

/-- A training batch: a dict from `DefaultDataKeys` to tensors. -/
abbrev Batch := List (DefaultDataKeys × Tensor)

/-- Error signals observable from the embedded code: the explicit
"not supported" signal raised by `raise_not_supported`, and a Python
`assert` failure. -/
inductive FlashError where
  | notSupported (phase : String)
  | assertionError
deriving DecidableEq, Repr

/-- Modelled from the spec: `raise_not_supported` lives in
`flash/vision/style_transfer/_utils`, which is not under `src/`; per the spec,
validation and test steps "always fail with an explicit \"not supported\"
signal", so the helper raises the "not supported" signal for the named phase
and never returns normally (`NoReturn`). -/
def raise_not_supported {α : Type} (phase : String) : Except FlashError α :=
  Except.error (FlashError.notSupported phase)

/-- The runtime pieces of a constructed `StyleTransfer` task used by its
`step`: the wrapped model's forward pass, the pystiche perceptual-loss
evaluation (uninterpreted: given the stored style image, the stored content
image and the output image it yields the scalar `.total()`), and the style
image stored by `set_style_image` at construction. -/
structure StyleTransferRuntime where
  modelForward : Tensor → Tensor
  perceptualTotal : Tensor → Tensor → Tensor → ℚ
  styleImage : Tensor

/-- The value returned by `StyleTransfer.step`: a dict with the loss scalar
under key `loss` and a logging dict under key `logs`. -/
structure StepOutput where
  loss : ℚ
  logs : List (String × ℚ)
deriving DecidableEq, Repr

/-- `StyleTransfer.step`: set the batch as the content image, run the forward
pass, evaluate the perceptual loss total, and return the loss together with
the `perceptual_loss` logging entry. -/
def StyleTransfer.step (st : StyleTransferRuntime) (batch : Tensor) (_batch_idx : Nat) : StepOutput :=
  let input_image := batch
  let output_image := st.modelForward batch
  let lossVal := st.perceptualTotal st.styleImage input_image output_image
  let logs := [("perceptual_loss", lossVal)]
  { loss := lossVal, logs := logs }

/-- Modelled from the spec: `Task.training_step` of the external task base
class (`flash/core`, not under `src/`) dispatches to the `step` hook, which
`StyleTransfer` overrides; per the spec's training-step contract it computes
the forward pass, evaluates the perceptual loss, and returns the loss scalar
plus the logging dictionary. -/
def Task.trainingStep (st : StyleTransferRuntime) (batch : Tensor) (batch_idx : Nat) : StepOutput :=
  StyleTransfer.step st batch batch_idx

/-- `StyleTransfer.training_step`: forward `batch[DefaultDataKeys.INPUT]` to
the base class `training_step` (`none` models the `KeyError` when the batch
lacks the key). -/
def StyleTransfer.trainingStep (st : StyleTransferRuntime) (batch : Batch) (batch_idx : Nat) :
    Option StepOutput :=
  (dictLookup DefaultDataKeys.input batch).map fun inp => Task.trainingStep st inp batch_idx

/-- `StyleTransfer.validation_step`: `raise_not_supported("validation")`. -/
def StyleTransfer.validationStep (_st : StyleTransferRuntime) (_batch : Batch) (_batch_idx : Nat) :
    Except FlashError StepOutput :=
  raise_not_supported "validation"

/-- `StyleTransfer.test_step`: `raise_not_supported("test")`. -/
def StyleTransfer.testStep (_st : StyleTransferRuntime) (_batch : Batch) (_batch_idx : Nat) :
    Except FlashError StepOutput :=
  raise_not_supported "test"

/-! ### The pystiche loss operators assembled by `StyleTransfer.__init__` -/

/-- A pystiche multi-layer encoder, identified by which pretrained network it
wraps (`vgg16_multi_layer_encoder` is the only one the code constructs). -/
structure MultiLayerEncoder where
  modelId : Nat
deriving DecidableEq, Repr

/-- `pystiche.enc.vgg16_multi_layer_encoder()`. -/
def vgg16_multi_layer_encoder : MultiLayerEncoder := ⟨0⟩

/-- A single-layer encoder extracted from a multi-layer encoder
(`multi_layer_encoder.extract_encoder(layer)`). -/
structure Encoder where
  source : MultiLayerEncoder
  layer : String
deriving DecidableEq, Repr

/-- `MultiLayerEncoder.extract_encoder`. -/
def MultiLayerEncoder.extract_encoder (mle : MultiLayerEncoder) (layer : String) : Encoder :=
  ⟨mle, layer⟩

/-- Pystiche loss operators as the code constructs them.
`featureReconstruction` is `ops.FeatureReconstructionOperator(encoder,
score_weight)`; `multiLayerEncoding` is `ops.MultiLayerEncodingOperator(mle,
layers, op_factory, layer_weights, score_weight)` whose per-layer factory
builds the channel-normalised `GramOperator` subclassed inline in
`default_style_loss`; `perceptual` is `loss.PerceptualLoss(content, style)`;
`custom` stands for any caller-supplied operator. -/
inductive LossOperator where
  | featureReconstruction (encoder : Encoder) (score_weight : ℚ)
  | multiLayerEncoding (mle : MultiLayerEncoder) (layers : List String)
      (layer_weights : String) (score_weight : ℚ)
  | perceptual (content style : LossOperator)
  | custom (id : Nat)
deriving DecidableEq, Repr

/-- `StyleTransfer.default_multi_layer_encoder`. -/
def StyleTransfer.default_multi_layer_encoder : MultiLayerEncoder :=
  vgg16_multi_layer_encoder

/-- `StyleTransfer.default_content_loss`: a feature-reconstruction operator on
the encoder extracted at layer `relu2_2` with score weight `1e5`. -/
def StyleTransfer.default_content_loss (mleOpt : Option MultiLayerEncoder) : LossOperator :=
  let multi_layer_encoder := mleOpt.getD StyleTransfer.default_multi_layer_encoder
  let content_layer := "relu2_2"
  let content_encoder := multi_layer_encoder.extract_encoder content_layer
  let content_weight : ℚ := 100000
  LossOperator.featureReconstruction content_encoder content_weight

/-- `StyleTransfer.default_style_loss`: a multi-layer encoding operator over
layers `relu1_2, relu2_2, relu3_3, relu4_3` with `layer_weights="sum"` and
score weight `1e10`. -/
def StyleTransfer.default_style_loss (mleOpt : Option MultiLayerEncoder) : LossOperator :=
  let multi_layer_encoder := mleOpt.getD StyleTransfer.default_multi_layer_encoder
  let style_layers := ["relu1_2", "relu2_2", "relu3_3", "relu4_3"]
  let style_weight : ℚ := 10000000000
  LossOperator.multiLayerEncoding multi_layer_encoder style_layers "sum" style_weight

/-! ### `StyleTransfer.__init__` as a pure function from its arguments to the
arguments it hands to `Task.__init__` plus the fields it sets on itself -/

/-- The `style_image` constructor argument: a path string or a tensor. -/
inductive StyleImageArg where
  | path (p : String)
  | tensor (t : Tensor)
deriving DecidableEq, Repr

/-- `pystiche.image.read_image`: the external image loader, modelled as a
fixed concrete encoding of the path into a tensor (its numerics are outside
this repository; only "the tensor read from the path" matters here). -/
def read_image (p : String) : Tensor :=
  p.toList.map fun c => (c.toNat : ℚ)

/-- The `model` constructor argument. `transformer` is the `Transformer()`
instance built when the caller passes `None`; `custom` stands for any
caller-supplied module. -/
inductive NNModule where
  | transformer
  | custom (id : Nat)
deriving DecidableEq, Repr

/-- An optimizer class or instance, opaque to this code. -/
structure OptimizerArg where
  id : Nat
deriving DecidableEq, Repr

/-- A scheduler class, name or instance, opaque to this code. -/
structure SchedulerArg where
  id : Nat
deriving DecidableEq, Repr

/-- A keyword-argument dict, opaque to this code. -/
structure KwargsArg where
  id : Nat
deriving DecidableEq, Repr

/-- A serializer or serializer mapping, opaque to this code. -/
structure SerializerArg where
  id : Nat
deriving DecidableEq, Repr

/-- The arguments of `StyleTransfer.__init__`. -/
structure StyleTransferArgs where
  style_image : StyleImageArg
  model : Option NNModule
  multi_layer_encoder : Option MultiLayerEncoder
  content_loss : Option LossOperator
  style_loss : Option LossOperator
  optimizer : OptimizerArg
  optimizer_kwargs : Option KwargsArg
  scheduler : Option SchedulerArg
  scheduler_kwargs : Option KwargsArg
  learning_rate : ℚ
  serializer : Option SerializerArg
deriving DecidableEq, Repr

/-- The arguments `StyleTransfer.__init__` passes to `super().__init__`
(the external `Task` base class). -/
structure TaskInitArgs where
  model : NNModule
  loss_fn : LossOperator
  optimizer : OptimizerArg
  optimizer_kwargs : Option KwargsArg
  scheduler : Option SchedulerArg
  scheduler_kwargs : Option KwargsArg
  learning_rate : ℚ
  serializer : Option SerializerArg
deriving DecidableEq, Repr

/-- The fields `StyleTransfer.__init__` sets on the new instance after the
base-class call: `self.perceptual_loss` and the style image it stores via
`self.perceptual_loss.set_style_image(style_image)`. -/
structure StyleTransferInitState where
  perceptual_loss : LossOperator
  style_image : Tensor
deriving DecidableEq, Repr

/-- `StyleTransfer.__init__`: resolve the style image (reading it when given
as a path), default the model to `Transformer()`, default the encoder and the
content/style losses, combine the latter into a `PerceptualLoss`, call
`super().__init__` with the model and that loss as `loss_fn` plus the
optimizer/scheduler/hyperparameter arguments, then store the perceptual loss
and set its style image. -/
def StyleTransfer.init (args : StyleTransferArgs) : TaskInitArgs × StyleTransferInitState :=
  let style_image : Tensor :=
    match args.style_image with
    | StyleImageArg.path p => read_image p
    | StyleImageArg.tensor t => t
  let model := args.model.getD NNModule.transformer
  let multi_layer_encoder := args.multi_layer_encoder.getD StyleTransfer.default_multi_layer_encoder
  let content_loss := args.content_loss.getD (StyleTransfer.default_content_loss (some multi_layer_encoder))
  let style_loss := args.style_loss.getD (StyleTransfer.default_style_loss (some multi_layer_encoder))
  let perceptual_loss := LossOperator.perceptual content_loss style_loss
  ({ model := model,
     loss_fn := perceptual_loss,
     optimizer := args.optimizer,
     optimizer_kwargs := args.optimizer_kwargs,
     scheduler := args.scheduler,
     scheduler_kwargs := args.scheduler_kwargs,
     learning_rate := args.learning_rate,
     serializer := args.serializer },
   { perceptual_loss := perceptual_loss, style_image := style_image })

/-! ### The `Transformer` module: range conversion and forward composition -/

/-- `FloatToUint8Range.forward`: `input * 255.0`, elementwise. -/
def FloatToUint8Range.forward (input : Tensor) : Tensor :=
  input.map fun x => x * 255

/-- `Uint8ToFloatRange.forward`: `input / 255.0`, elementwise. -/
def Uint8ToFloatRange.forward (input : Tensor) : Tensor :=
  input.map fun x => x / 255

/-- The `Transformer`'s encoder and decoder sub-networks: convolution stacks
whose layers are external `torch.nn` modules, kept uninterpreted. -/
structure TransformerNets where
  encoder : Tensor → Tensor
  decoder : Tensor → Tensor

/-- `Transformer.forward`: preprocess into the 0-255 range, run the decoder on
the encoder's output, postprocess back into the 0-1 range. -/
def Transformer.forward (m : TransformerNets) (input : Tensor) : Tensor :=
  let pre := FloatToUint8Range.forward input
  let output := m.decoder (m.encoder pre)
  Uint8ToFloatRange.forward output

/-! ### The `Conv`/`Residual` modules at the level of spatial shapes -/

/-- The configuration `Conv.__init__` builds: `upsample` holds the
`Interpolate` scale factor when requested (`Interpolate(scale_factor=stride)`),
`padding` is the `ReflectionPad2d` amount `kernel_size // 2`, and
`conv_stride` is the stride handed to `nn.Conv2d`
(`1 if upsample else stride`). -/
structure ConvConfig where
  in_channels : Nat
  out_channels : Nat
  kernel_size : Nat
  upsample : Option Nat
  padding : Nat
  conv_stride : Nat
  norm : Bool
  activation : Bool
deriving DecidableEq, Repr

/-- `Conv.__init__` with arguments `(in_channels, out_channels, kernel_size,
stride, upsample, norm, activation)`. -/
def Conv.make (in_channels out_channels kernel_size stride : Nat)
    (upsample norm activation : Bool) : ConvConfig :=
  { in_channels := in_channels,
    out_channels := out_channels,
    kernel_size := kernel_size,
    upsample := if upsample then some stride else none,
    padding := kernel_size / 2,
    conv_stride := if upsample then 1 else stride,
    norm := norm,
    activation := activation }

/-- Spatial shape of `interpolate(input, scale_factor=s)` on an `(H, W)`
input, for an integer scale factor. -/
def interpolateShape (scale : Nat) (hw : Nat × Nat) : Nat × Nat :=
  (hw.1 * scale, hw.2 * scale)

/-- Spatial shape of `ReflectionPad2d(p)`. -/
def reflectionPadShape (p : Nat) (hw : Nat × Nat) : Nat × Nat :=
  (hw.1 + 2 * p, hw.2 + 2 * p)

/-- Spatial shape of `nn.Conv2d` with kernel `k`, stride `s` and no padding:
`((H - k) / s + 1, (W - k) / s + 1)` with floor division. -/
def conv2dShape (k s : Nat) (hw : Nat × Nat) : Nat × Nat :=
  ((hw.1 - k) / s + 1, (hw.2 - k) / s + 1)

/-- Spatial shape of `Conv.forward`: optional upsample, then reflection pad,
then the convolution; `InstanceNorm2d` and `ReLU` preserve shape. -/
def Conv.forwardShape (c : ConvConfig) (hw : Nat × Nat) : Nat × Nat :=
  let upsampled :=
    match c.upsample with
    | some scale => interpolateShape scale hw
    | none => hw
  conv2dShape c.kernel_size c.conv_stride (reflectionPadShape c.padding upsampled)

/-- `Residual.__init__` builds `conv1 = Conv(channels, channels, 3)` and
`conv2 = Conv(channels, channels, 3, activation=False)`. -/
def Residual.convs (channels : Nat) : ConvConfig × ConvConfig :=
  (Conv.make channels channels 3 1 false true true,
   Conv.make channels channels 3 1 false true false)

/-- Spatial shape of `Residual.forward`'s `conv2(conv1(input))` term, the
tensor that is added to `input`. -/
def Residual.forwardShape (channels : Nat) (hw : Nat × Nat) : Nat × Nat :=
  Conv.forwardShape (Residual.convs channels).2
    (Conv.forwardShape (Residual.convs channels).1 hw)

/-! ### The tutorial's `MultipleFoldersImageDataset` -/

/-- The values stored in a tutorial sample dict: a file-path string under
`INPUT`, a class index under `TARGET`. -/
inductive DataValue where
  | str (s : String)
  | idx (n : Nat)
deriving DecidableEq, Repr

/-- A sample: a dict from `DefaultDataKeys` to values. -/
abbrev Sample := List (DefaultDataKeys × DataValue)

/-- The filesystem as seen through `os.path.isdir` and `os.listdir`. -/
structure FileSystem where
  isDir : String → Bool
  listdir : String → List String

/-- `os.path.flatten(folder, p)`. -/
def pathJoin (a b : String) : String := a ++ "/" ++ b

/-- The running stages of the parent framework's lifecycle
(`pytorch_lightning.trainer.states.RunningStage`, restricted to the stages the
spec's glossary names). -/
inductive RunningStage where
  | training
  | validating
  | testing
  | predicting
deriving DecidableEq, Repr

/-- The dataset state the tutorial touches: the stage-aware `FlashDataset`'s
running stage and its optional `num_classes` attribute (`none` models the
attribute being unset, where Python raises `AttributeError`). -/
structure FlashDatasetState where
  runningStage : RunningStage
  numClasses : Option Nat
deriving DecidableEq, Repr

/-- Modelled from the spec: the `training` property of the state-aware
`FlashDataset` base class (`flash/core`, not under `src/`) holds exactly when
the dataset's running stage is the training stage. -/
def FlashDatasetState.training (st : FlashDatasetState) : Bool :=
  st.runningStage = RunningStage.training

/-- Python's builtin `enumerate`, starting from index `i`. -/
def enumerateFrom {α : Type} (i : Nat) : List α → List (Nat × α)
  | [] => []
  | a :: as => (i, a) :: enumerateFrom (i + 1) as

/-- Python's builtin `enumerate(l)`. -/
def pyEnumerate {α : Type} (l : List α) : List (Nat × α) := enumerateFrom 0 l

/-- `MultipleFoldersImageDataset.load_data`: when training, set
`self.num_classes = len(folders)`; return one sample per listed file of each
folder, keyed `INPUT` with the joined path and `TARGET` with the folder's
`enumerate` index. -/
def MultipleFoldersImageDataset.load_data (fsys : FileSystem) (st : FlashDatasetState)
    (folders : List String) : FlashDatasetState × List Sample :=
  let st2 := if st.training then { st with numClasses := some folders.length } else st
  (st2,
    (pyEnumerate folders).flatMap fun cf =>
      (fsys.listdir cf.2).map fun p =>
        [(DefaultDataKeys.input, DataValue.str (pathJoin cf.2 p)),
         (DefaultDataKeys.target, DataValue.idx cf.1)])

/-- `MultipleFoldersImageDataset.predict_load_data`: `assert
os.path.isdir(predict_folder)`, then one `INPUT`-only sample per directory
entry. -/
def MultipleFoldersImageDataset.predict_load_data (fsys : FileSystem) (predict_folder : String) :
    Except FlashError (List Sample) :=
  if fsys.isDir predict_folder then
    Except.ok ((fsys.listdir predict_folder).map fun p =>
      [(DefaultDataKeys.input, DataValue.str (pathJoin predict_folder p))])
  else
    Except.error FlashError.assertionError

/-- The block of samples `load_data` produces from the folder carrying
`enumerate` index `i`. -/
def folderSamples (fsys : FileSystem) (i : Nat) (folder : String) : List Sample :=
  (fsys.listdir folder).map fun p =>
    [(DefaultDataKeys.input, DataValue.str (pathJoin folder p)),
     (DefaultDataKeys.target, DataValue.idx i)]

/-- The per-folder blocks of `load_data`, starting from `enumerate` index `n`. -/
def loadDataBlocks (fsys : FileSystem) : Nat → List String → List (List Sample)
  | _, [] => []
  | n, f :: rest => folderSamples fsys n f :: loadDataBlocks fsys (n + 1) rest

/-! ### Concrete inputs used to witness the theorems below -/

/-- A small concrete filesystem: `a` and `b` play folder roles, `d` is the
only directory `isDir` accepts. -/
def sampleFS : FileSystem :=
  { isDir := fun p => p == "d",
    listdir := fun f => if f == "a" then ["x", "y"] else if f == "d" then ["p1"] else ["z"] }

/-- Concrete constructor arguments with an explicit content loss. -/
def sampleArgsA : StyleTransferArgs :=
  { style_image := StyleImageArg.tensor [1],
    model := none,
    multi_layer_encoder := none,
    content_loss := some (LossOperator.custom 7),
    style_loss := none,
    optimizer := ⟨3⟩,
    optimizer_kwargs := none,
    scheduler := none,
    scheduler_kwargs := none,
    learning_rate := 1 / 1000,
    serializer := none }

/-- Concrete constructor arguments leaving both losses to their defaults. -/
def sampleArgsB : StyleTransferArgs :=
  { style_image := StyleImageArg.path "starry_night.jpg",
    model := some (NNModule.custom 2),
    multi_layer_encoder := some ⟨5⟩,
    content_loss := none,
    style_loss := none,
    optimizer := ⟨0⟩,
    optimizer_kwargs := some ⟨1⟩,
    scheduler := some ⟨2⟩,
    scheduler_kwargs := none,
    learning_rate := 1 / 100,
    serializer := some ⟨4⟩ }

/-- Concrete constructor arguments with every optional argument supplied. -/
def sampleArgsC : StyleTransferArgs :=
  { style_image := StyleImageArg.tensor [5],
    model := some (NNModule.custom 2),
    multi_layer_encoder := some ⟨6⟩,
    content_loss := some (LossOperator.custom 1),
    style_loss := some (LossOperator.custom 9),
    optimizer := ⟨3⟩,
    optimizer_kwargs := some ⟨1⟩,
    scheduler := some ⟨2⟩,
    scheduler_kwargs := some ⟨8⟩,
    learning_rate := 2,
    serializer := some ⟨4⟩ }

/-! ## Theorems -/

/-- C1: For every batch and every batch index, `StyleTransfer.validation_step`
and `StyleTransfer.test_step` raise the explicit "not supported" signal via
`raise_not_supported` and never return a value, regardless of the contents of
the batch. -/
theorem validation_test_steps_always_fail (st : StyleTransferRuntime) (batch : Batch) (i : Nat) :
    StyleTransfer.validationStep st batch i =
      Except.error (FlashError.notSupported "validation") ∧
    StyleTransfer.testStep st batch i = Except.error (FlashError.notSupported "test") :=
  ⟨rfl, rfl⟩

/-- C2: The loss of `StyleTransfer.training_step` depends only on the
constructed runtime (model, perceptual loss, stored style image) and the
batch's `DefaultDataKeys.INPUT` entry: two batches agreeing on that entry, no
matter how their `TARGET` or other entries differ, yield identical results. -/
theorem training_loss_independent_of_target (st : StyleTransferRuntime) (b1 b2 : Batch)
    (i : Nat)
    (h : dictLookup DefaultDataKeys.input b1 = dictLookup DefaultDataKeys.input b2) :
    StyleTransfer.trainingStep st b1 i = StyleTransfer.trainingStep st b2 i := by
  unfold StyleTransfer.trainingStep
  rw [h]

/-- Witness for C2: two concrete batches sharing `INPUT` but with different
`TARGET` tensors produce the same training-step result. -/
theorem training_loss_independent_of_target_witness :
    StyleTransfer.trainingStep ⟨id, fun _ _ _ => 0, []⟩
        [(DefaultDataKeys.input, [1]), (DefaultDataKeys.target, [2])] 0 =
      StyleTransfer.trainingStep ⟨id, fun _ _ _ => 0, []⟩
        [(DefaultDataKeys.input, [1]), (DefaultDataKeys.target, [3])] 0 :=
  training_loss_independent_of_target ⟨id, fun _ _ _ => 0, []⟩
    [(DefaultDataKeys.input, [1]), (DefaultDataKeys.target, [2])]
    [(DefaultDataKeys.input, [1]), (DefaultDataKeys.target, [3])] 0 rfl

/-- C6: On a batch carrying `DefaultDataKeys.INPUT`, `training_step` runs the
forward pass on the input, evaluates the perceptual loss of the output against
the stored style image and the input as content image, and returns the loss
under key `loss` together with a logging dict mapping `perceptual_loss` to the
same scalar under key `logs`. -/
theorem training_step_returns_loss_and_logs (st : StyleTransferRuntime) (batch : Batch)
    (i : Nat) (inp : Tensor)
    (h : dictLookup DefaultDataKeys.input batch = some inp) :
    StyleTransfer.trainingStep st batch i =
      some { loss := st.perceptualTotal st.styleImage inp (st.modelForward inp),
             logs := [("perceptual_loss",
               st.perceptualTotal st.styleImage inp (st.modelForward inp))] } := by
  simp [StyleTransfer.trainingStep, Task.trainingStep, StyleTransfer.step, h]

/-- Witness for C6: a concrete runtime returning loss `5` produces exactly the
`loss`/`logs` record. -/
theorem training_step_returns_loss_and_logs_witness :
    StyleTransfer.trainingStep ⟨id, fun _ _ _ => 5, [9]⟩ [(DefaultDataKeys.input, [1])] 0 =
      some { loss := 5, logs := [("perceptual_loss", 5)] } :=
  training_step_returns_loss_and_logs ⟨id, fun _ _ _ => 5, [9]⟩
    [(DefaultDataKeys.input, [1])] 0 [1] rfl

/-- C8: Scaling into the 0-255 range and back are mutual inverses over exact
arithmetic, and `Transformer.forward` is exactly the composition
postprocessor - decoder - encoder - preprocessor. -/
theorem pre_post_processors_mutual_inverses :
    (∀ t : Tensor, Uint8ToFloatRange.forward (FloatToUint8Range.forward t) = t) ∧
    (∀ t : Tensor, FloatToUint8Range.forward (Uint8ToFloatRange.forward t) = t) ∧
    ∀ (m : TransformerNets) (t : Tensor),
      Transformer.forward m t =
        Uint8ToFloatRange.forward (m.decoder (m.encoder (FloatToUint8Range.forward t))) := by
  have h255 : (255 : ℚ) ≠ 0 := by norm_num
  refine ⟨fun t => ?_, fun t => ?_, fun m t => rfl⟩
  · have h : ((fun x : ℚ => x / 255) ∘ fun x : ℚ => x * 255) = id :=
      funext fun x => mul_div_cancel_right₀ x h255
    simp only [FloatToUint8Range.forward, Uint8ToFloatRange.forward, List.map_map, h,
      List.map_id]
  · have h : ((fun x : ℚ => x * 255) ∘ fun x : ℚ => x / 255) = id :=
      funext fun x => div_mul_cancel₀ x h255
    simp only [FloatToUint8Range.forward, Uint8ToFloatRange.forward, List.map_map, h,
      List.map_id]

/-- C9: A `Conv` built with `upsample=True` interpolates by a scale factor
equal to the requested stride and hands stride `1` to the convolution; for any
`Conv` with odd kernel size and stride `1` (with or without upsampling) the
reflection padding of `kernel_size // 2` exactly cancels the convolution's
spatial reduction, so `Residual.forward` adds two tensors of equal spatial
shape. -/
theorem conv_upsample_and_shape_preservation (cin cout k s : Nat) (n a : Bool)
    (H W channels : Nat) (hk : k % 2 = 1) (hH : 1 ≤ H) (hW : 1 ≤ W) :
    ((Conv.make cin cout k s true n a).upsample = some s ∧
      (Conv.make cin cout k s true n a).conv_stride = 1) ∧
    Conv.forwardShape (Conv.make cin cout k 1 false n a) (H, W) = (H, W) ∧
    Conv.forwardShape (Conv.make cin cout k 1 true n a) (H, W) = (H, W) ∧
    Residual.forwardShape channels (H, W) = (H, W) := by
  refine ⟨⟨rfl, rfl⟩, ?_, ?_, ?_⟩ <;>
    simp only [Conv.forwardShape, Conv.make, Residual.forwardShape, Residual.convs,
      interpolateShape, reflectionPadShape, conv2dShape, if_true, if_false,
      Bool.false_eq_true, ite_false, ite_true, Prod.mk.injEq] <;>
    constructor <;> omega

/-- Witness for C9: the shape facts hold at kernel `9`, stride `2`, a `4 x 7`
input and `128` channels. -/
theorem conv_upsample_and_shape_preservation_witness :
    ((Conv.make 3 32 9 2 true true true).upsample = some 2 ∧
      (Conv.make 3 32 9 2 true true true).conv_stride = 1) ∧
    Conv.forwardShape (Conv.make 3 32 9 1 false true true) (4, 7) = (4, 7) ∧
    Conv.forwardShape (Conv.make 3 32 9 1 true true true) (4, 7) = (4, 7) ∧
    Residual.forwardShape 128 (4, 7) = (4, 7) :=
  conv_upsample_and_shape_preservation 3 32 9 2 true true 4 7 128 (by decide)
    (by decide) (by decide)

/-- The samples `load_data` builds are the concatenation of the per-folder
blocks, for any starting `enumerate` index. -/
theorem enumerateFrom_flatMap_eq_blocks (fsys : FileSystem) (n : Nat) (l : List String) :
    ((enumerateFrom n l).flatMap fun cf =>
      (fsys.listdir cf.2).map fun p =>
        [(DefaultDataKeys.input, DataValue.str (pathJoin cf.2 p)),
         (DefaultDataKeys.target, DataValue.idx cf.1)]) = (loadDataBlocks fsys n l).flatten := by
  induction l generalizing n with
  | nil => rfl
  | cons f rest ih =>
    simp [enumerateFrom, loadDataBlocks, folderSamples, ih]

/-- There is one block per folder. -/
theorem loadDataBlocks_length (fsys : FileSystem) (n : Nat) (l : List String) :
    (loadDataBlocks fsys n l).length = l.length := by
  induction l generalizing n with
  | nil => rfl
  | cons f rest ih => simp [loadDataBlocks, ih]

/-- The block at position `i` is the sample block of the folder at position
`i`, carrying `enumerate` index `n + i`. -/
theorem loadDataBlocks_getD (fsys : FileSystem) (n : Nat) (l : List String) (i : Nat)
    (hi : i < l.length) :
    (loadDataBlocks fsys n l).getD i [] = folderSamples fsys (n + i) (l.getD i "") := by
  induction l generalizing n i with
  | nil => simp at hi
  | cons f rest ih =>
    cases i with
    | zero => simp [loadDataBlocks]
    | succ j =>
      have hj : j < rest.length := by simpa using hi
      simp only [loadDataBlocks, List.getD_cons_succ]
      rw [ih (n + 1) j hj]
      congr 1
      omega

/-- Every sample of the block with `enumerate` index `i` carries `TARGET = i`
and an `INPUT` path joined from the folder. -/
theorem folderSamples_fields (fsys : FileSystem) (i : Nat) (folder : String) :
    ∀ s ∈ folderSamples fsys i folder,
      dictLookup DefaultDataKeys.target s = some (DataValue.idx i) ∧
      ∃ p ∈ fsys.listdir folder,
        dictLookup DefaultDataKeys.input s = some (DataValue.str (pathJoin folder p)) := by
  intro s hs
  simp only [folderSamples, List.mem_map] at hs
  obtain ⟨p, hp, rfl⟩ := hs
  exact ⟨rfl, p, hp, rfl⟩

/-- C3: For every non-empty folder list, `load_data` returns the concatenation
of per-folder blocks, one block per folder in order (so all samples of folder
`i` precede those of folder `i+1`); block `i` holds one sample per file listed
in folder `i`, each with `TARGET = i` and `INPUT` the joined path of one of
the listed files. -/
theorem load_data_enumerates_folders (fsys : FileSystem) (st : FlashDatasetState)
    (folders : List String) (hne : folders ≠ []) :
    ∃ blocks : List (List Sample),
      (MultipleFoldersImageDataset.load_data fsys st folders).2 = blocks.flatten ∧
      blocks.length = folders.length ∧
      ∀ i, i < folders.length →
        (blocks.getD i []).length = (fsys.listdir (folders.getD i "")).length ∧
        ∀ s ∈ blocks.getD i [],
          dictLookup DefaultDataKeys.target s = some (DataValue.idx i) ∧
          ∃ p ∈ fsys.listdir (folders.getD i ""),
            dictLookup DefaultDataKeys.input s =
              some (DataValue.str (pathJoin (folders.getD i "") p)) := by
  refine ⟨loadDataBlocks fsys 0 folders, ?_, loadDataBlocks_length fsys 0 folders, ?_⟩
  · simpa [MultipleFoldersImageDataset.load_data, pyEnumerate] using
      enumerateFrom_flatMap_eq_blocks fsys 0 folders
  · intro i hi
    rw [loadDataBlocks_getD fsys 0 folders i hi]
    refine ⟨by simp [folderSamples], ?_⟩
    simpa using folderSamples_fields fsys (0 + i) (folders.getD i "")

/-- Witness for C3: the block decomposition at two concrete folders with two
and one listed files respectively. -/
theorem load_data_enumerates_folders_witness :
    ∃ blocks : List (List Sample),
      (MultipleFoldersImageDataset.load_data sampleFS
        ⟨RunningStage.training, none⟩ ["a", "b"]).2 = blocks.flatten ∧
      blocks.length = (["a", "b"] : List String).length ∧
      ∀ i, i < (["a", "b"] : List String).length →
        (blocks.getD i []).length =
          (sampleFS.listdir ((["a", "b"] : List String).getD i "")).length ∧
        ∀ s ∈ blocks.getD i [],
          dictLookup DefaultDataKeys.target s = some (DataValue.idx i) ∧
          ∃ p ∈ sampleFS.listdir ((["a", "b"] : List String).getD i ""),
            dictLookup DefaultDataKeys.input s =
              some (DataValue.str (pathJoin ((["a", "b"] : List String).getD i "") p)) :=
  load_data_enumerates_folders sampleFS ⟨RunningStage.training, none⟩ ["a", "b"] (by simp)

/-- C4: `load_data` sets `num_classes` to the number of folders exactly when
the dataset's running stage is training; at every other stage it returns the
state unchanged, so `num_classes` stays unset when it was unset. -/
theorem load_data_sets_num_classes_only_in_training (fsys : FileSystem)
    (st : FlashDatasetState) (folders : List String) :
    (st.runningStage = RunningStage.training →
      (MultipleFoldersImageDataset.load_data fsys st folders).1 =
        { st with numClasses := some folders.length }) ∧
    (st.runningStage ≠ RunningStage.training →
      (MultipleFoldersImageDataset.load_data fsys st folders).1 = st) := by
  constructor <;> intro h <;>
    simp [MultipleFoldersImageDataset.load_data, FlashDatasetState.training, h]

/-- Witness for C4: a training-stage state gets `num_classes = 2` from two
folders; a predicting-stage state is returned untouched, `num_classes` unset. -/
theorem load_data_sets_num_classes_only_in_training_witness :
    (MultipleFoldersImageDataset.load_data sampleFS
      ⟨RunningStage.training, none⟩ ["a", "b"]).1 =
        { runningStage := RunningStage.training, numClasses := some 2 } ∧
    (MultipleFoldersImageDataset.load_data sampleFS
      ⟨RunningStage.predicting, none⟩ ["a", "b"]).1 =
        { runningStage := RunningStage.predicting, numClasses := none } :=
  ⟨(load_data_sets_num_classes_only_in_training sampleFS
      ⟨RunningStage.training, none⟩ ["a", "b"]).1 rfl,
   (load_data_sets_num_classes_only_in_training sampleFS
      ⟨RunningStage.predicting, none⟩ ["a", "b"]).2 (by decide)⟩

/-- C10: `predict_load_data` fails the assertion exactly when its argument is
not a directory; on a directory it returns one sample per directory entry,
each holding only the `INPUT` key (so never a `TARGET` key). -/
theorem predict_load_data_only_input_key (fsys : FileSystem) (folder : String) :
    (fsys.isDir folder = false →
      MultipleFoldersImageDataset.predict_load_data fsys folder =
        Except.error FlashError.assertionError) ∧
    (fsys.isDir folder = true →
      ∃ samples,
        MultipleFoldersImageDataset.predict_load_data fsys folder = Except.ok samples ∧
        samples.length = (fsys.listdir folder).length ∧
        ∀ s ∈ samples,
          (∃ v, dictLookup DefaultDataKeys.input s = some v) ∧
          dictLookup DefaultDataKeys.target s = none ∧
          ∀ kv ∈ s, kv.1 = DefaultDataKeys.input) := by
  constructor <;> intro h
  · simp [MultipleFoldersImageDataset.predict_load_data, h]
  · refine ⟨(fsys.listdir folder).map fun p =>
      [(DefaultDataKeys.input, DataValue.str (pathJoin folder p))], ?_, by simp, ?_⟩
    · simp [MultipleFoldersImageDataset.predict_load_data, h]
    · intro s hs
      simp only [List.mem_map] at hs
      obtain ⟨p, hp, rfl⟩ := hs
      exact ⟨⟨DataValue.str (pathJoin folder p), rfl⟩, rfl, by simp⟩

/-- Witness for C10: on the concrete filesystem, a non-directory argument
fails the assertion and the directory `d` yields its one `INPUT`-only sample. -/
theorem predict_load_data_only_input_key_witness :
    MultipleFoldersImageDataset.predict_load_data sampleFS "nope" =
      Except.error FlashError.assertionError ∧
    ∃ samples,
      MultipleFoldersImageDataset.predict_load_data sampleFS "d" = Except.ok samples ∧
      samples.length = (sampleFS.listdir "d").length ∧
      ∀ s ∈ samples,
        (∃ v, dictLookup DefaultDataKeys.input s = some v) ∧
        dictLookup DefaultDataKeys.target s = none ∧
        ∀ kv ∈ s, kv.1 = DefaultDataKeys.input :=
  ⟨(predict_load_data_only_input_key sampleFS "nope").1 (by decide),
   (predict_load_data_only_input_key sampleFS "d").2 (by decide)⟩

/-- Counterexample for C5: the caller passes `content_loss = custom 7`, yet
the loss argument the base class receives is the `PerceptualLoss` wrapper, not
that operator as given — so not every constructor argument reaches the base
class exactly as passed (the style image reaches it not at all: `Task`'s
argument list has no style-image slot). -/
theorem init_wraps_rather_than_forwards_losses :
    sampleArgsA.content_loss = some (LossOperator.custom 7) ∧
    (StyleTransfer.init sampleArgsA).1.loss_fn ≠ LossOperator.custom 7 := by
  refine ⟨rfl, ?_⟩
  simp [StyleTransfer.init, sampleArgsA]

/-- C5 as amended: the optimizer, optimizer keyword arguments, scheduler,
scheduler keyword arguments, learning rate and serializer are forwarded to the
`Task` base class unchanged, as is the model when one is provided; the content
and style losses reach the base class combined into a `PerceptualLoss` passed
as `loss_fn`; the style image is not passed to the base class — it is resolved
(read from disk when given as a path) and stored on the perceptual loss. -/
theorem init_forwarding_amended (args : StyleTransferArgs) :
    (StyleTransfer.init args).1.optimizer = args.optimizer ∧
    (StyleTransfer.init args).1.optimizer_kwargs = args.optimizer_kwargs ∧
    (StyleTransfer.init args).1.scheduler = args.scheduler ∧
    (StyleTransfer.init args).1.scheduler_kwargs = args.scheduler_kwargs ∧
    (StyleTransfer.init args).1.learning_rate = args.learning_rate ∧
    (StyleTransfer.init args).1.serializer = args.serializer ∧
    (∀ m, args.model = some m → (StyleTransfer.init args).1.model = m) ∧
    (∀ c s, args.content_loss = some c → args.style_loss = some s →
      (StyleTransfer.init args).1.loss_fn = LossOperator.perceptual c s) ∧
    (StyleTransfer.init args).1.loss_fn = (StyleTransfer.init args).2.perceptual_loss ∧
    (∀ t, args.style_image = StyleImageArg.tensor t →
      (StyleTransfer.init args).2.style_image = t) ∧
    (∀ p, args.style_image = StyleImageArg.path p →
      (StyleTransfer.init args).2.style_image = read_image p) := by
  refine ⟨rfl, rfl, rfl, rfl, rfl, rfl, ?_, ?_, rfl, ?_, ?_⟩
  · intro m hm
    simp [StyleTransfer.init, hm]
  · intro c s hc hs
    simp [StyleTransfer.init, hc, hs]
  · intro t ht
    simp [StyleTransfer.init, ht]
  · intro p hp
    simp [StyleTransfer.init, hp]

/-- Witness for C5's amended statement: concrete arguments with every option
supplied are forwarded as described. -/
theorem init_forwarding_amended_witness :
    (StyleTransfer.init sampleArgsC).1.optimizer = ⟨3⟩ ∧
    (StyleTransfer.init sampleArgsC).1.model = NNModule.custom 2 ∧
    (StyleTransfer.init sampleArgsC).1.loss_fn =
      LossOperator.perceptual (LossOperator.custom 1) (LossOperator.custom 9) ∧
    (StyleTransfer.init sampleArgsC).2.style_image = [5] := by
  obtain ⟨h1, -, -, -, -, -, hm, hl, -, ht, -⟩ := init_forwarding_amended sampleArgsC
  exact ⟨h1, hm _ rfl, hl _ _ rfl rfl, ht _ rfl⟩

/-- C7: when no content or style loss is supplied, the defaults are a
feature-reconstruction operator on the single extracted layer `relu2_2` with
score weight `1e5` and a multi-layer encoding operator on exactly the layers
`relu1_2, relu2_2, relu3_3, relu4_3` with `sum` layer weighting and score
weight `1e10`; the constructor then uses exactly these two as the perceptual
loss handed to the base class. -/
theorem default_losses_fixed_layers (mle : MultiLayerEncoder) (args : StyleTransferArgs)
    (hc : args.content_loss = none) (hs : args.style_loss = none)
    (hm : args.multi_layer_encoder = some mle) :
    StyleTransfer.default_content_loss (some mle) =
      LossOperator.featureReconstruction (mle.extract_encoder "relu2_2") 100000 ∧
    StyleTransfer.default_style_loss (some mle) =
      LossOperator.multiLayerEncoding mle ["relu1_2", "relu2_2", "relu3_3", "relu4_3"]
        "sum" 10000000000 ∧
    (StyleTransfer.init args).1.loss_fn =
      LossOperator.perceptual
        (LossOperator.featureReconstruction (mle.extract_encoder "relu2_2") 100000)
        (LossOperator.multiLayerEncoding mle ["relu1_2", "relu2_2", "relu3_3", "relu4_3"]
          "sum" 10000000000) := by
  refine ⟨rfl, rfl, ?_⟩
  simp [StyleTransfer.init, hc, hs, hm, StyleTransfer.default_content_loss,
    StyleTransfer.default_style_loss]

/-- Witness for C7: with no losses supplied and the encoder `⟨5⟩`, the
perceptual loss handed to the base class is built from exactly the default
layers and weights. -/
theorem default_losses_fixed_layers_witness :
    StyleTransfer.default_content_loss (some ⟨5⟩) =
      LossOperator.featureReconstruction (MultiLayerEncoder.extract_encoder ⟨5⟩ "relu2_2")
        100000 ∧
    StyleTransfer.default_style_loss (some ⟨5⟩) =
      LossOperator.multiLayerEncoding ⟨5⟩ ["relu1_2", "relu2_2", "relu3_3", "relu4_3"]
        "sum" 10000000000 ∧
    (StyleTransfer.init sampleArgsB).1.loss_fn =
      LossOperator.perceptual
        (LossOperator.featureReconstruction (MultiLayerEncoder.extract_encoder ⟨5⟩ "relu2_2")
          100000)
        (LossOperator.multiLayerEncoding ⟨5⟩ ["relu1_2", "relu2_2", "relu3_3", "relu4_3"]
          "sum" 10000000000) :=
  default_losses_fixed_layers ⟨5⟩ sampleArgsB rfl rfl rfl
